import Mathlib

/-!
Verification of the Task Lifecycle & Reminder Escalation Engine of
taskmanagerboss against its specification.

Timestamps are modelled as `Int` minutes (the source uses `datetime`
arithmetic, which never truncates, so `Int` is the faithful carrier).
Durations from the source: 1 hour = 60, 30 minutes = 30, 48 hours = 2880.

A central fact of this program: `models.py` maps the columns `id, text,
category, status, group_id, topic_id, owner_id, created_at, due_at,
reminded_at, overdue_count, snooze_reason` and nothing else, on a plain
`DeclarativeBase`. The attributes `reminded_before_due` and
`deadline_asked_at` that `scheduler.py` reads and writes exist nowhere in
the repository's data model, so reading either on a `Task` instance
raises `AttributeError`. Trigger evaluation is therefore embedded as a
fallible computation returning `Except`, with the due-date branch
raising exactly where the source does.
-/

namespace TaskManagerBoss

/-- The four reminder triggers of `src/app/scheduler.py`'s `update_flag`
vocabulary (`reminded_before_due`, `deadline_asked_at`,
`overdue_penalty`, `standard_48h`). -/
inductive Trigger where
  | preDue
  | atDue
  | overduePenalty
  | periodicNoDue
deriving DecidableEq, Repr

/-- A Python runtime error surfaced by the embedded code: an
`AttributeError` naming the missing attribute. -/
inductive PyError where
  | attributeError (attr : String)
deriving DecidableEq, Repr

/-- The task row exactly as `src/app/models.py` maps it (routing
metadata `group_id`/`topic_id`/`owner_id` omitted as opaque). There is
no `reminded_before_due` and no `deadline_asked_at` column: nothing in
the repository defines either attribute. -/
structure Task where
  text : String
  category : String
  status : String
  createdAt : Int
  dueAt : Option Int
  remindedAt : Option Int
  overdueCount : Nat
  snoozeReason : Option String
deriving DecidableEq, Repr

/-- Trigger evaluation, translated from the per-task decision in
`send_reminders` (`src/app/scheduler.py` lines 25-50) with Python's
short-circuit evaluation made explicit. In the `if task.due_at:` branch
every path reads a missing attribute: when `now` is in
`[due_at - 1h, due_at)` line 32's third conjunct reads
`task.reminded_before_due` and raises; when `now ≥ due_at` line 37's
second conjunct reads `task.deadline_asked_at` and raises; otherwise
line 42 reads `task.deadline_asked_at` and raises. Only the no-deadline
48-hour branch (lines 45-50), which touches real columns, completes. -/
def evaluate (task : Task) (now : Int) : Except PyError (Option Trigger) :=
  match task.dueAt with
  | some dueAt =>
      if now ≥ dueAt - 60 ∧ now < dueAt then
        Except.error (PyError.attributeError "reminded_before_due")
      else if now ≥ dueAt then
        Except.error (PyError.attributeError "deadline_asked_at")
      else
        Except.error (PyError.attributeError "deadline_asked_at")
  | none =>
      let last := task.remindedAt.getD task.createdAt
      Except.ok (if now ≥ last + 2880 then some Trigger.periodicNoDue else none)

/-- The persisted effect of the per-trigger update block of
`send_reminders` (`src/app/scheduler.py` lines 96-108):
`reminded_at = now` always, `overdue_count += 1` for the two penalty
flags. The writes to `reminded_before_due` (line 100) and
`deadline_asked_at` (lines 102, 105) set unmapped transient attributes
that `session.commit()` never persists, so they have no effect on the
row and are dropped here; the three deadline-trigger branches are in any
case unreachable, since `evaluate` never returns them. -/
def applyTrigger (t : Task) (trig : Trigger) (now : Int) : Task :=
  let t1 := { t with remindedAt := some now }
  match trig with
  | .preDue => t1
  | .atDue => t1
  | .overduePenalty => { t1 with overdueCount := t1.overdueCount + 1 }
  | .periodicNoDue => { t1 with overdueCount := t1.overdueCount + 1 }

/-- The events that can touch a task record: a scheduler tick (with the
notification send's outcome), and the three user actions from
`src/app/handlers/callbacks.py`. -/
inductive Action where
  | tick (now : Int) (sendOk : Bool)
  | markDone
  | recordNotDone (reason : String)
  | markDoingNow (now : Int)
deriving DecidableEq, Repr

/-- One event applied to one task record. A tick evaluates only pending
tasks (the query filters on `status == "pending"`); when evaluation
raises, the exception propagates out of the loop before any send or
write, so the row is unchanged; when a trigger fires, the updates
persist only if the send succeeded (`src/app/scheduler.py` lines
80-112). `markDone` sets `status = "done"`, `recordNotDone` writes only
`snooze_reason`, `markDoingNow` resets only `reminded_at`
(`src/app/handlers/callbacks.py`). -/
def applyAction (t : Task) (a : Action) : Task :=
  match a with
  | .tick now sendOk =>
      if t.status = "pending" then
        match evaluate t now with
        | .error _ => t
        | .ok none => t
        | .ok (some trig) => if sendOk then applyTrigger t trig now else t
      else t
  | .markDone => { t with status := "done" }
  | .recordNotDone r => { t with snoozeReason := some r }
  | .markDoingNow now => { t with remindedAt := some now }

/-- A sequence of scheduler ticks and user actions applied in order. -/
def run (t : Task) (acts : List Action) : Task :=
  acts.foldl applyAction t

/-- Whether the next action, from state `t`, is a scheduler tick in
which an `OVERDUE_PENALTY` or `PERIODIC_NO_DUE` trigger fires and the
notification send succeeds, so that its updates persist. -/
def isPenaltyFire (t : Task) (a : Action) : Bool :=
  match a with
  | .tick now sendOk =>
      sendOk && decide (t.status = "pending") &&
        (match evaluate t now with
         | .ok (some .overduePenalty) => true
         | .ok (some .periodicNoDue) => true
         | _ => false)
  | _ => false

/-- The number of persisted `OVERDUE_PENALTY`/`PERIODIC_NO_DUE` fires
along a run. -/
def penaltyFireCount (t : Task) : List Action → Nat
  | [] => 0
  | a :: rest =>
      (if isPenaltyFire t a then 1 else 0) + penaltyFireCount (applyAction t a) rest

/-- Whether the next action is a scheduler tick in which `PRE_DUE` fires
and the send succeeds. -/
def isPreDueFire (t : Task) (a : Action) : Bool :=
  match a with
  | .tick now sendOk =>
      sendOk && decide (t.status = "pending") &&
        (match evaluate t now with
         | .ok (some .preDue) => true
         | _ => false)
  | _ => false

/-- The number of persisted `PRE_DUE` fires along a run. -/
def preDueFireCount (t : Task) : List Action → Nat
  | [] => 0
  | a :: rest =>
      (if isPreDueFire t a then 1 else 0) + preDueFireCount (applyAction t a) rest

/-- The four escalating personas of `generate_reminder`
(`src/app/ai.py` lines 149-164). -/
inductive ToneTier where
  | neutralFirm
  | impatient
  | sarcastic
  | aggressive
deriving DecidableEq, Repr

/-- The tone selection of `generate_reminder`: `count == 0`, `== 1`,
`== 2`, else-branch for everything larger. -/
def toneFor (overdueCount : Nat) : ToneTier :=
  if overdueCount = 0 then .neutralFirm
  else if overdueCount = 1 then .impatient
  else if overdueCount = 2 then .sarcastic
  else .aggressive

/-- Position of a tier in the escalation order. -/
def tierRank : ToneTier → Nat
  | .neutralFirm => 0
  | .impatient => 1
  | .sarcastic => 2
  | .aggressive => 3

/-- Outcome of one provider call, classified as `_call` does
(`src/app/ai.py` lines 69-81): success, `ResourceExhausted`
(rate-limited), or any other exception. -/
inductive CallResult where
  | success (text : String)
  | rateLimited
  | otherError
deriving DecidableEq, Repr

/-- The `PRIMARY_MODEL` constant of `src/app/ai.py`. -/
def PRIMARY_MODEL : String := "gemini-2.0-flash-lite"

/-- The `FALLBACK_MODEL` constant of `src/app/ai.py`. -/
def FALLBACK_MODEL : String := "gemini-2.0-flash"

/-- The inner attempt loop of `_call` for one model (`src/app/ai.py`
lines 66-81), against a provider giving the outcome of each
(model, attempt) call. Returns the text on success, the list of
(model, attempt) calls issued, and how many 35-second backoff sleeps
were taken: a success returns immediately; a rate-limit on attempt 0
sleeps and retries the same model; a rate-limit on attempt 1 or any
other error abandons the model. -/
def tryModel (provider : String → Nat → CallResult) (model : String) :
    Option String × List (String × Nat) × Nat :=
  match provider model 0 with
  | .success s => (some s.trim, [(model, 0)], 0)
  | .rateLimited =>
      match provider model 1 with
      | .success s => (some s.trim, [(model, 0), (model, 1)], 1)
      | .rateLimited => (none, [(model, 0), (model, 1)], 1)
      | .otherError => (none, [(model, 0), (model, 1)], 1)
  | .otherError => (none, [(model, 0)], 0)

/-- The fatal error `_call` raises after both models are exhausted
(`RuntimeError("All Gemini models failed or rate limited")`). -/
inductive GenError where
  | allProvidersExhausted
deriving DecidableEq, Repr

/-- The function `_call` (`src/app/ai.py` lines 64-82): try `PRIMARY_MODEL` then
`FALLBACK_MODEL`, each with the two-attempt loop; raise
`AllProvidersExhausted` if neither yields text. Also returns the full
ordered call trace and the total number of backoff sleeps. -/
def generate (provider : String → Nat → CallResult) :
    Except GenError String × List (String × Nat) × Nat :=
  match tryModel provider PRIMARY_MODEL with
  | (some s, calls, sleeps) => (.ok s, calls, sleeps)
  | (none, calls1, sleeps1) =>
      match tryModel provider FALLBACK_MODEL with
      | (some s, calls2, sleeps2) => (.ok s, calls1 ++ calls2, sleeps1 + sleeps2)
      | (none, calls2, sleeps2) =>
          (.error .allProvidersExhausted, calls1 ++ calls2, sleeps1 + sleeps2)

/-- The reminder-text step of `send_reminders` (`src/app/scheduler.py`
lines 62-70): on success decorate per trigger, on any generation failure
substitute the static fallback string built from the task text. -/
def schedulerReminderText (provider : String → Nat → CallResult)
    (trig : Trigger) (taskText : String) : String :=
  match (generate provider).1 with
  | .ok s =>
      match trig with
      | .atDue => "⏰ Muddat keldi!\n\n" ++ s
      | .preDue => "1 soat qoldi! " ++ s
      | _ => s
  | .error _ => "⏰ Hali bajarilmagan vazifa bor: " ++ taskText

/-- One (userMessage, generatedReply) pair of the per-user history kept
by `chat` (`src/app/ai.py` lines 223-240). -/
structure Turn where
  user : String
  bot : String
deriving DecidableEq, Repr

/-- Python's `l[-n:]` slice on the history list (total for `n ≥ 1`;
`n = 0` would return the whole list, as in Python). -/
def lastSlice (l : List Turn) (n : Nat) : List Turn :=
  if n = 0 then l else l.drop (l.length - n)

/-- The append-then-trim step of `chat` (`src/app/ai.py` lines 234-238):
`history.append(turn)` followed by
`if len(history) > 20: history = history[-20:]`. -/
def appendTurn (history : List Turn) (t : Turn) : List Turn :=
  let h := history ++ [t]
  if 20 < h.length then lastSlice h 20 else h

/-- The read side of `chat`: the last 10 turns (`history[-10:]`) fed to
the model, in stored order, most recent last. -/
def recentTurns (history : List Turn) (n : Nat) : List Turn :=
  lastSlice history n

/-- Number of parameters of `def chat(user_id: int, message: str)`
(`src/app/ai.py` line 223). -/
def chatParamCount : Nat := 2

/-- Number of positional arguments `private_message_handler` passes to
`chat` via `asyncio.to_thread(chat, user_id, user_text, pending_tasks)`
(`src/app/handlers/private.py` line 51). -/
def privateChatArgCount : Nat := 3

/-- A Python positional call: it reaches the body only when the argument
count matches the parameter count, otherwise it raises `TypeError`. -/
inductive PyCallResult (α : Type) where
  | ok (a : α)
  | typeError
deriving DecidableEq, Repr

/-- Model of calling a Python function with `argCount` positional
arguments against a signature of `paramCount` parameters. -/
def callPy {α : Type} (paramCount argCount : Nat) (body : α) : PyCallResult α :=
  if argCount = paramCount then .ok body else .typeError

/-- The reply `private_message_handler` shows the owner
(`src/app/handlers/private.py` lines 50-56): the chat reply if the call
succeeds, else the static error string from the `except` branch. -/
def privateHandlerReply (chatReply : String) : String :=
  match callPy chatParamCount privateChatArgCount chatReply with
  | .ok r => r
  | .typeError => "⚠️ AI bilan bog\x27lanishda xatolik. Qaytadan urinib ko\x27ring."

/-- A pending task with a deadline: `dueAt = 1000`. -/
def dueTask : Task :=
  { text := "report", category := "work", status := "pending",
    createdAt := 0, dueAt := some 1000, remindedAt := none,
    overdueCount := 0, snoozeReason := none }

/-- A pending task with `dueAt = 100`, so that `now = 70` lies in the
pre-due reminder window. -/
def preDueTask : Task :=
  { text := "call", category := "personal", status := "pending",
    createdAt := 0, dueAt := some 100, remindedAt := none,
    overdueCount := 0, snoozeReason := none }

/-- A pending task without a deadline, created at time 0, never
reminded. -/
def noDueTask : Task :=
  { text := "read", category := "personal", status := "pending",
    createdAt := 0, dueAt := none, remindedAt := none,
    overdueCount := 0, snoozeReason := none }

/-- A conversation buffer filled to the 20-turn trim threshold. -/
def fullBuffer : List Turn :=
  List.replicate 20 { user := "u", bot := "b" }

/-! ## Theorems -/

/-- For every task with `dueAt` set, evaluation raises an
`AttributeError` on a missing tracking attribute: `reminded_before_due`
in the pre-due window, `deadline_asked_at` everywhere else. -/
theorem due_branch_error (t : Task) (now d : Int) (hd : t.dueAt = some d) :
    evaluate t now = Except.error (PyError.attributeError "reminded_before_due") ∨
    evaluate t now = Except.error (PyError.attributeError "deadline_asked_at") := by
  simp only [evaluate, hd]
  split_ifs <;> simp

/-- Evaluation never yields a `PRE_DUE` trigger: the due-date branch
that could produce it raises first, and the no-deadline branch yields
only `PERIODIC_NO_DUE` or nothing. -/
theorem evaluate_ne_preDue (t : Task) (now : Int) :
    evaluate t now ≠ Except.ok (some Trigger.preDue) := by
  rcases hd : t.dueAt with _ | d
  · simp only [evaluate, hd]
    split_ifs <;> simp
  · rcases due_branch_error t now d hd with h | h <;> simp [h]

/-- C1: the code contradicts the claim. Trigger evaluation is not the
stated four-rule function: `models.py` maps no `reminded_before_due` and
no `deadline_asked_at` column, so for every task with `dueAt` set the
`if/elif` chain of `scheduler.py` lines 29-43 raises `AttributeError`
instead of returning a trigger — in the pre-due window at line 32
(reading `reminded_before_due`), at or after the deadline at line 37 and
before the window at line 42 (reading `deadline_asked_at`). In
particular at `now = dueAt` the code raises rather than firing `AT_DUE`.
Only rule 4, the no-deadline 48-hour cadence, is executable and behaves
as claimed. -/
theorem C1_due_branch_raises :
    evaluate dueTask 970 = Except.error (PyError.attributeError "reminded_before_due") ∧
    evaluate dueTask 1000 = Except.error (PyError.attributeError "deadline_asked_at") ∧
    evaluate dueTask 100 = Except.error (PyError.attributeError "deadline_asked_at") ∧
    evaluate noDueTask 2880 = Except.ok (some Trigger.periodicNoDue) ∧
    evaluate noDueTask 2879 = Except.ok none :=
  ⟨rfl, rfl, rfl, rfl, rfl⟩

/-- C3: the code contradicts the claim (and its own comment at
`scheduler.py` line 105, "Reset so it falls into standard 48h loop").
The `OVERDUE_PENALTY` path is unreachable: evaluating the task at the
time `AT_DUE` would fire (1000) and at the time `OVERDUE_PENALTY` would
fire (1031) raises `AttributeError` on the missing `deadline_asked_at`
attribute, nothing is ever sent or persisted, and the run leaves the
record byte-identical — so no re-entry into the 48-hour cadence ever
happens. -/
theorem C3_penalty_path_unreachable :
    evaluate dueTask 1000 = Except.error (PyError.attributeError "deadline_asked_at") ∧
    evaluate dueTask 1031 = Except.error (PyError.attributeError "deadline_asked_at") ∧
    run dueTask [Action.tick 1000 true, Action.tick 1031 true] = dueTask :=
  ⟨rfl, rfl, rfl⟩

/-- Rank of the tier chosen for a given overdue count: the escalation
saturates at 3. -/
theorem tierRank_toneFor (n : Nat) : tierRank (toneFor n) = min n 3 := by
  unfold toneFor
  split_ifs with h0 h1 h2 <;> simp [tierRank] <;> omega

/-- C6: `generate_reminder`'s tone selection maps overdue counts 0, 1, 2
to the neutral-firm, impatient and sarcastic tiers, every count ≥ 3 to
the aggressive tier, is total, non-decreasing in the count, and strictly
increasing across the four bands. -/
theorem C6_tone_policy :
    toneFor 0 = ToneTier.neutralFirm ∧
    toneFor 1 = ToneTier.impatient ∧
    toneFor 2 = ToneTier.sarcastic ∧
    (∀ n, 3 ≤ n → toneFor n = ToneTier.aggressive) ∧
    (∀ a b, a ≤ b → tierRank (toneFor a) ≤ tierRank (toneFor b)) ∧
    tierRank (toneFor 0) < tierRank (toneFor 1) ∧
    tierRank (toneFor 1) < tierRank (toneFor 2) ∧
    tierRank (toneFor 2) < tierRank (toneFor 3) := by
  refine ⟨rfl, rfl, rfl, ?_, ?_, by decide, by decide, by decide⟩
  · intro n h3
    unfold toneFor
    split_ifs <;> first | rfl | omega
  · intro a b hab
    rw [tierRank_toneFor, tierRank_toneFor]
    omega

/-- C6 witness: the saturating band and monotonicity at concrete
counts. -/
theorem C6_tone_policy_witness :
    toneFor 5 = ToneTier.aggressive ∧
    tierRank (toneFor 2) ≤ tierRank (toneFor 7) :=
  ⟨C6_tone_policy.2.2.2.1 5 (by decide),
   C6_tone_policy.2.2.2.2.1 2 7 (by decide)⟩

/-- C10: for a task with `dueAt` set, the due-date branch of trigger
evaluation never reads `remindedAt`: two tasks differing only in
`remindedAt` get the same outcome at every time — in this program that
outcome is always an `AttributeError` naming a missing tracking column,
determined only by where `now` falls relative to `dueAt` — so
`markDoingNow`, which resets only `remindedAt`, changes nothing for a
task with a deadline and delays reminders only for no-deadline tasks. -/
theorem C10_remindedAt_independent (t : Task) (x : Option Int)
    (now m d : Int) (hd : t.dueAt = some d) :
    evaluate { t with remindedAt := x } now = evaluate t now ∧
    evaluate (applyAction t (Action.markDoingNow m)) now = evaluate t now ∧
    (evaluate t now = Except.error (PyError.attributeError "reminded_before_due") ∨
     evaluate t now = Except.error (PyError.attributeError "deadline_asked_at")) := by
  refine ⟨?_, ?_, due_branch_error t now d hd⟩ <;>
    · cases t
      cases hd
      rfl

/-- C10 witness: resetting `remindedAt` on a concrete deadline task
changes no evaluation outcome. -/
theorem C10_remindedAt_independent_witness :
    evaluate { dueTask with remindedAt := some 5 } 1200 = evaluate dueTask 1200 ∧
    evaluate (applyAction dueTask (Action.markDoingNow 5)) 1200
      = evaluate dueTask 1200 ∧
    (evaluate dueTask 1200 = Except.error (PyError.attributeError "reminded_before_due") ∨
     evaluate dueTask 1200 = Except.error (PyError.attributeError "deadline_asked_at")) :=
  C10_remindedAt_independent dueTask (some 5) 1200 5 1000 rfl

/-- Unfolding a run one action at a time. -/
theorem run_cons (t : Task) (a : Action) (acts : List Action) :
    run t (a :: acts) = run (applyAction t a) acts := rfl

/-- One event changes `overdueCount` by exactly 1 on a persisted
`OVERDUE_PENALTY`/`PERIODIC_NO_DUE` fire and by 0 otherwise — an
evaluation that raises changes nothing, since the exception propagates
before any write. -/
theorem overdueCount_step (t : Task) (a : Action) :
    (applyAction t a).overdueCount =
      t.overdueCount + (if isPenaltyFire t a then 1 else 0) := by
  cases a with
  | tick now sendOk =>
      by_cases hp : t.status = "pending"
      · rcases he : evaluate t now with e | o
        · simp [applyAction, isPenaltyFire, hp, he]
        · rcases o with _ | trig
          · simp [applyAction, isPenaltyFire, hp, he]
          · cases sendOk
            · simp [applyAction, isPenaltyFire, hp, he]
            · cases trig <;>
                simp [applyAction, isPenaltyFire, applyTrigger, hp, he]
      · simp [applyAction, isPenaltyFire, hp]
  | markDone => simp [applyAction, isPenaltyFire]
  | recordNotDone r => simp [applyAction, isPenaltyFire]
  | markDoingNow now => simp [applyAction, isPenaltyFire]

/-- Auxiliary form of C2's counting identity, for induction. -/
theorem run_overdueCount (acts : List Action) (t : Task) :
    (run t acts).overdueCount = t.overdueCount + penaltyFireCount t acts := by
  induction acts generalizing t with
  | nil => simp [run, penaltyFireCount]
  | cons a rest ih =>
      rw [run_cons, ih, overdueCount_step, penaltyFireCount]
      omega

/-- C2: over any sequence of scheduler ticks and user actions, a task's
`overdueCount` grows by exactly the number of persisted
`OVERDUE_PENALTY` plus `PERIODIC_NO_DUE` fires (in this program the
`OVERDUE_PENALTY` summand is identically zero, because due-branch
evaluation raises before the trigger can fire, and a raising tick writes
nothing); it is monotonically non-decreasing; and `recordNotDone` writes
only `snoozeReason`, leaving every other field — in particular
`overdueCount` — unchanged. -/
theorem C2_overdueCount_only_scheduler (t : Task) (acts : List Action)
    (r : String) :
    (run t acts).overdueCount = t.overdueCount + penaltyFireCount t acts ∧
    t.overdueCount ≤ (run t acts).overdueCount ∧
    applyAction t (Action.recordNotDone r) = { t with snoozeReason := some r } := by
  refine ⟨run_overdueCount acts t, ?_, rfl⟩
  rw [run_overdueCount acts t]
  omega

/-- C4: the code contradicts the claim. The `PRE_DUE`, `AT_DUE` and
`OVERDUE_PENALTY` persistence paths can never run — evaluation of any
`dueAt`-set task raises `AttributeError` before any send — and their
flag writes (`scheduler.py` lines 100, 102, 105) target attributes
unmapped in `models.py`, which `session.commit()` would not persist.
Only the `PERIODIC_NO_DUE` path is real, and for it persistence is
atomic with the send: a failed send leaves the record unchanged, a
successful send sets exactly `remindedAt = now` and increments
`overdueCount`. -/
theorem C4_flag_persistence_broken :
    evaluate preDueTask 70 = Except.error (PyError.attributeError "reminded_before_due") ∧
    evaluate dueTask 1005 = Except.error (PyError.attributeError "deadline_asked_at") ∧
    applyAction noDueTask (Action.tick 3000 false) = noDueTask ∧
    applyAction noDueTask (Action.tick 3000 true) =
      { noDueTask with remindedAt := some 3000,
                       overdueCount := noDueTask.overdueCount + 1 } :=
  ⟨rfl, rfl, rfl, rfl⟩

/-- C5: against a provider that reports rate-limiting on every call,
`_call` issues exactly four calls — primary model attempts 0 and 1, then
fallback model attempts 0 and 1, with one fixed backoff sleep between
the two attempts on each model — and fails with
`AllProvidersExhausted`; the scheduler then substitutes the static
fallback reminder string instead of propagating the failure. -/
theorem C5_rate_limited_exhaustion (provider : String → Nat → CallResult)
    (h : ∀ m a, provider m a = CallResult.rateLimited)
    (trig : Trigger) (text : String) :
    generate provider =
      (Except.error GenError.allProvidersExhausted,
       [(PRIMARY_MODEL, 0), (PRIMARY_MODEL, 1),
        (FALLBACK_MODEL, 0), (FALLBACK_MODEL, 1)], 2) ∧
    schedulerReminderText provider trig text =
      "⏰ Hali bajarilmagan vazifa bor: " ++ text := by
  constructor
  · simp [generate, tryModel, h]
  · simp [schedulerReminderText, generate, tryModel, h]

/-- C5 witness: the constantly rate-limited provider. -/
theorem C5_rate_limited_exhaustion_witness :
    generate (fun _ _ => CallResult.rateLimited) =
      (Except.error GenError.allProvidersExhausted,
       [(PRIMARY_MODEL, 0), (PRIMARY_MODEL, 1),
        (FALLBACK_MODEL, 0), (FALLBACK_MODEL, 1)], 2) ∧
    schedulerReminderText (fun _ _ => CallResult.rateLimited)
        Trigger.periodicNoDue "report" =
      "⏰ Hali bajarilmagan vazifa bor: " ++ "report" :=
  C5_rate_limited_exhaustion (fun _ _ => CallResult.rateLimited)
    (fun _ _ => rfl) Trigger.periodicNoDue "report"

/-- No run ever counts a persisted `PRE_DUE` fire: evaluation can never
return `PRE_DUE` at all. -/
theorem preDueFireCount_eq_zero (acts : List Action) (t : Task) :
    preDueFireCount t acts = 0 := by
  induction acts generalizing t with
  | nil => rfl
  | cons a rest ih =>
      have hfire : isPreDueFire t a = false := by
        cases a with
        | tick now sendOk =>
            have hne := evaluate_ne_preDue t now
            simp only [isPreDueFire]
            rcases he : evaluate t now with e | o
            · simp
            · rcases o with _ | trig
              · simp
              · cases trig with
                | preDue => exact absurd he hne
                | atDue => simp
                | overduePenalty => simp
                | periodicNoDue => simp
        | markDone => rfl
        | recordNotDone r => rfl
        | markDoingNow now => rfl
      simp [preDueFireCount, hfire, ih (applyAction t a)]

/-- C7: the code contradicts the claim. The `PRE_DUE` trigger never
fires even once: in the pre-due window the evaluation reads the missing
`reminded_before_due` attribute and raises `AttributeError` before any
send, so over any sequence of ticks and user actions the number of
persisted `PRE_DUE` fires is zero — and the claimed set-once flag does
not exist as a column, so there is nothing for the persistence path
(line 100's write is an unpersisted transient attribute) to set. -/
theorem C7_preDue_never_fires :
    evaluate preDueTask 70 = Except.error (PyError.attributeError "reminded_before_due") ∧
    (∀ t acts, preDueFireCount t acts = 0) :=
  ⟨rfl, fun t acts => preDueFireCount_eq_zero acts t⟩

/-- C8: the conversation history kept by `chat` is capacity-bounded at
20 turns (appending to a buffer within capacity stays within capacity),
eviction is FIFO (appending at capacity drops exactly the oldest turn),
and the recent-turns read returns exactly `min n bufferSize` turns,
forming a suffix of the buffer — insertion order kept, most recent
last. -/
theorem C8_buffer_fifo (buf : List Turn) (e : Turn) (n : Nat) :
    (buf.length ≤ 20 → (appendTurn buf e).length ≤ 20) ∧
    (buf.length = 20 → appendTurn buf e = buf.drop 1 ++ [e]) ∧
    (1 ≤ n → (recentTurns buf n).length = min n buf.length) ∧
    (1 ≤ n → buf.take (buf.length - n) ++ recentTurns buf n = buf) := by
  refine ⟨?_, ?_, ?_, ?_⟩
  · intro hle
    simp only [appendTurn, lastSlice, List.length_append, List.length_singleton]
    split_ifs <;> simp_all <;> omega
  · intro h20
    simp only [appendTurn, lastSlice, List.length_append,
               List.length_singleton, h20]
    norm_num
    cases buf with
    | nil => simp at h20
    | cons x xs => simp
  · intro hn
    simp only [recentTurns, lastSlice]
    rw [if_neg (by omega)]
    rw [List.length_drop]
    omega
  · intro hn
    simp only [recentTurns, lastSlice]
    rw [if_neg (by omega)]
    exact List.take_append_drop _ buf

/-- C8 witness: appending to a buffer at the 20-turn capacity, and
reading the 10 most recent turns. -/
theorem C8_buffer_fifo_witness :
    (appendTurn fullBuffer { user := "x", bot := "y" }).length ≤ 20 ∧
    appendTurn fullBuffer { user := "x", bot := "y" }
      = fullBuffer.drop 1 ++ [{ user := "x", bot := "y" }] ∧
    (recentTurns fullBuffer 10).length = min 10 fullBuffer.length ∧
    fullBuffer.take (fullBuffer.length - 10) ++ recentTurns fullBuffer 10
      = fullBuffer := by
  obtain ⟨h1, h2, h3, h4⟩ :=
    C8_buffer_fifo fullBuffer { user := "x", bot := "y" } 10
  exact ⟨h1 (by decide), h2 (by decide), h3 (by decide), h4 (by decide)⟩

/-- C9: the code contradicts the claim. `chat` is defined with two
parameters (`user_id`, `message`), but `private_message_handler` calls
it with three positional arguments, adding the pending-task hint list;
the call therefore raises `TypeError` instead of reaching the body, and
the handler's `except` branch replaces every would-be reply with the
static error string. -/
theorem C9_chat_arity_mismatch (reply : String) :
    callPy chatParamCount privateChatArgCount reply
      = PyCallResult.typeError ∧
    privateHandlerReply reply =
      "⚠️ AI bilan bog\x27lanishda xatolik. Qaytadan urinib ko\x27ring." :=
  ⟨rfl, rfl⟩

end TaskManagerBoss
